import Mathlib

/-!
Verification of the Passbolt API client (passbolt.py).

The client is shallowly embedded: each Python method becomes a Lean
function over an explicit state.  HTTP traffic is modelled by a list of
pending responses consumed in order (one per request issued) together
with a trace of the requests that were sent; the PGP engine (python-gnupg)
is modelled by oracle functions carried in the state; Python exceptions
become an error monad.  JSON values decoded by json.loads are modelled by
an inductive type whose numbers are integers.
-/

namespace Passbolt

/-- JSON values as decoded by json.loads (numbers restricted to integers,
which covers every value this client inspects). -/
inductive Json where
  | null
  | bool (b : Bool)
  | num (n : Int)
  | str (s : String)
  | arr (elems : List Json)
  | obj (fields : List (String × Json))

/-- Python exceptions that the translated code can raise. -/
inductive PyError where
  | keyError
  | typeError
  | indexError
  | connectionError
deriving DecidableEq

/-- HTTP methods used by the client. -/
inductive Method where
  | get
  | post
  | put
deriving DecidableEq

/-- A request issued through the httpx session: method, absolute URL and
optional JSON body (the `json=post` argument). -/
structure Request where
  method : Method
  url : String
  body : Option Json

/-- A server response: HTTP status code, response headers (httpx stores
header names lower-cased) and the JSON value that json.loads would return
for its text. -/
structure HttpResponse where
  status_code : Nat
  headers : List (String × String)
  text : Json

/-- One console output produced by print / pprint. -/
inductive LogItem where
  | json (j : Json)
  | str (s : String)
  | headers (hs : List (String × String))
  | blank
  | resp (r : HttpResponse)

/-- Result of gpg.decrypt: the `ok` flag and the decrypted data (str() of
a python-gnupg Crypt object yields the data, empty when decryption
failed). -/
structure Crypt where
  ok : Bool
  data : String

/-- The mutable fields of a PassboltAPI instance (plus the immutable
fingerprint and base_url fixed by __init__). -/
structure Client where
  fingerprint : String
  base_url : String
  authenticated : Bool
  token : Option String
  USER_ID : Option Json
  pgp_message : Option String
  nonce : Option Crypt
  sessionHeaders : List (String × String)
  cookies : List (String × String)

/-- Whole-world state: the client object, the pending server responses
(consumed in order, one per request), the trace of issued requests, the
console output, and the PGP oracles.  `dec` models gpg.decrypt with the
configured passphrase; `enc` models gpg.encrypt of a message to a
recipient fingerprint. -/
structure St where
  client : Client
  pending : List HttpResponse
  trace : List Request
  log : List LogItem
  dec : String → Crypt
  enc : String → Json → String

/-- Lookup of a key in the field list of a JSON object (python dict keys
are unique, so first occurrence wins). -/
def fieldsFind : List (String × Json) → String → Option Json
  | [], _ => none
  | (k, v) :: rest, key => if k = key then some v else fieldsFind rest key

/-- Total field access: some value when `j` is an object holding the key. -/
def Json.field : Json → String → Option Json
  | .obj fs, k => fieldsFind fs k
  | _, _ => none

/-- Python subscription d[k]: KeyError when the key is missing, TypeError
when the value is not a dict. -/
def Json.index : Json → String → Except PyError Json
  | .obj fs, k =>
    match fieldsFind fs k with
    | some v => .ok v
    | none => .error .keyError
  | _, _ => .error .typeError

/-- Python equality of a decoded JSON value against a string (a str
compares equal only to an equal str). -/
def jsonEqStr (j : Json) (t : String) : Bool :=
  match j with
  | .str s => s = t
  | _ => false

/-- Python equality of a decoded JSON value against an int. -/
def jsonEqNum (j : Json) (t : Int) : Bool :=
  match j with
  | .num n => n = t
  | _ => false

/-- Extraction of the envelope code: decoded_response["header"]["code"]. -/
def envCode (j : Json) : Except PyError Json :=
  match j.index "header" with
  | .error e => .error e
  | .ok h => h.index "code"

/-- response.headers.get(name) (names assumed stored lower-cased, as
httpx does). -/
def headerGet (hs : List (String × String)) (k : String) : Option String :=
  match hs with
  | [] => none
  | (k', v) :: rest => if k' = k then some v else headerGet rest k

/-- Hexadecimal digit value, as accepted inside a percent escape. -/
def hexVal (c : Char) : Option Nat :=
  if '0' ≤ c ∧ c ≤ '9' then some (c.toNat - '0'.toNat)
  else if 'a' ≤ c ∧ c ≤ 'f' then some (c.toNat - 'a'.toNat + 10)
  else if 'A' ≤ c ∧ c ≤ 'F' then some (c.toNat - 'A'.toNat + 10)
  else none

/-- urllib.parse.unquote on the ASCII fragment used by this protocol:
a percent escape followed by two hex digits decodes to that byte, an
invalid escape is kept verbatim; a plus sign is NOT touched (unquote,
unlike unquote_plus, leaves it alone). -/
def unquoteChars : List Char → List Char
  | [] => []
  | '%' :: a :: b :: rest =>
    match hexVal a, hexVal b with
    | some x, some y => Char.ofNat (16 * x + y) :: unquoteChars rest
    | _, _ => '%' :: unquoteChars (a :: b :: rest)
  | c :: rest => c :: unquoteChars rest

/-- str.replace("\\+", " "): every occurrence of the two-character
sequence backslash-plus becomes one space, scanning left to right. -/
def replaceBackslashPlus : List Char → List Char
  | [] => []
  | '\\' :: '+' :: rest => ' ' :: replaceBackslashPlus rest
  | c :: rest => c :: replaceBackslashPlus rest

/-- The header transform applied by stage1:
unquote(header).replace("\\+", " "). -/
def pgpTransform (s : String) : String :=
  String.mk (replaceBackslashPlus (unquoteChars s.data))

/-- Append one console output item. -/
def pylog (st : St) (x : LogItem) : St :=
  { st with log := st.log ++ [x] }

/-- URL f"\x7bself.base_url\x7d/auth/login.json" fixed in __init__. -/
def loginUrl (st : St) : String :=
  st.client.base_url ++ "/auth/login.json"

/-- URL f"\x7bself.base_url\x7d/users.json". -/
def usersUrl (st : St) : String :=
  st.client.base_url ++ "/users.json"

/-- URL f"\x7bself.base_url\x7d/users/me.json". -/
def meUrl (st : St) : String :=
  st.client.base_url ++ "/users/me.json"

/-- URL f"\x7bself.base_url\x7d/groups.json". -/
def groupsUrl (st : St) : String :=
  st.client.base_url ++ "/groups.json"

/-- URL of the dry-run endpoint for a group. -/
def dryRunUrl (st : St) (group_id : String) : String :=
  st.client.base_url ++ "/groups/" ++ group_id ++ "/dry-run.json"

/-- URL of the commit endpoint for a group. -/
def commitUrl (st : St) (group_id : String) : String :=
  st.client.base_url ++ "/groups/" ++ group_id ++ ".json"

/-- URL of the single-user endpoint. -/
def userIdUrl (st : St) (user_id : String) : String :=
  st.client.base_url ++ "/users/" ++ user_id ++ ".json"

/-- One round trip through the httpx session: consume the next pending
response and record the request; with no response left the transport
errors out. -/
def httpCall (m : Method) (url : String) (body : Option Json) (st : St) :
    Except PyError (HttpResponse × St) :=
  match st.pending with
  | [] => .error .connectionError
  | r :: rest =>
    .ok (r, { st with pending := rest, trace := st.trace ++ [⟨m, url, body⟩] })

/-- Stage-1 request body. -/
def stage1Post (fpr : String) : Json :=
  .obj [("data", .obj [("gpg_auth", .obj [("keyid", .str fpr)])])]

/-- Stage-2 request body, carrying the decrypted nonce. -/
def stage2Post (fpr nonce : String) : Json :=
  .obj [("data", .obj [("gpg_auth",
    .obj [("keyid", .str fpr), ("user_token_result", .str nonce)])])]

/-- PassboltAPI.stage1: POST the fingerprint; on envelope code 200
return the transformed x-gpgauth-user-auth-token header (a missing
header raises, since unquote(None) raises TypeError); otherwise pprint
the decoded response and return None. -/
def stage1 (st : St) : Except PyError (Option String × St) :=
  match httpCall .post (loginUrl st) (some (stage1Post st.client.fingerprint)) st with
  | .error e => .error e
  | .ok (r, st1) =>
    match envCode r.text with
    | .error e => .error e
    | .ok c =>
      if jsonEqNum c 200 then
        match headerGet r.headers "x-gpgauth-user-auth-token" with
        | none => .error .typeError
        | some v => .ok (some (pgpTransform v), st1)
      else
        .ok (none, pylog st1 (.json r.text))

/-- PassboltAPI.decrypt via gpg.decrypt: a None message becomes an empty
input stream (BytesIO(None)), on which gpg fails, yielding a Crypt with
ok=False and empty data; a string message is decided by the oracle. -/
def decryptMsg (st : St) (message : Option String) : Crypt :=
  match message with
  | none => ⟨false, ""⟩
  | some m => st.dec m

/-- PassboltAPI.stage2: POST fingerprint and nonce; True exactly when
the envelope code is 200. -/
def stage2 (nonce : String) (st : St) : Except PyError (Bool × St) :=
  match httpCall .post (loginUrl st) (some (stage2Post st.client.fingerprint nonce)) st with
  | .error e => .error e
  | .ok (r, st1) =>
    match envCode r.text with
    | .error e => .error e
    | .ok c => .ok (jsonEqNum c 200, st1)

/-- Python token[10:-8] character slicing. -/
def sliceToken (s : String) : String :=
  String.mk (((s.data.drop 10)).take ((s.data.drop 10).length - 8))

/-- PassboltAPI.get_cookie: GET users/me.json, store the body id as
USER_ID, then slice the set-cookie header into the CSRF token (a missing
set-cookie header means token is None and None[10:-8] raises TypeError)
and install it as the only session header. -/
def get_cookie (st : St) : Except PyError (Unit × St) :=
  match httpCall .get (meUrl st) none st with
  | .error e => .error e
  | .ok (r, st1) =>
    let token := headerGet r.headers "set-cookie"
    match r.text.index "body" with
    | .error e => .error e
    | .ok b =>
      match b.index "id" with
      | .error e => .error e
      | .ok uid =>
        let st2 := { st1 with client := { st1.client with USER_ID := some uid } }
        match token with
        | none => .error .typeError
        | some t =>
          .ok ((), { st2 with client := { st2.client with
            token := some (sliceToken t),
            sessionHeaders := [("X-CSRF-Token", sliceToken t)] } })

/-- PassboltAPI.check_login: GET the server root; a non-200 status only
prints a failure message and the response. -/
def check_login (st : St) : Except PyError (Unit × St) :=
  match httpCall .get (st.client.base_url ++ "/") none st with
  | .error e => .error e
  | .ok (r, st1) =>
    if r.status_code ≠ 200 then
      .ok ((), pylog (pylog st1 (.str "Falha no login")) (.resp r))
    else
      .ok ((), st1)

/-- PassboltAPI.login: stage1, decrypt the challenge, stage2 with the
str() of the Crypt, then get_cookie and check_login.  The authenticated
flag is whatever stage2 returned. -/
def login (st : St) : Except PyError (Unit × St) :=
  match stage1 st with
  | .error e => .error e
  | .ok (pm, st1) =>
    let st2 := { st1 with client := { st1.client with pgp_message := pm } }
    let n := decryptMsg st2 pm
    let st3 := { st2 with client := { st2.client with nonce := some n } }
    match stage2 n.data st3 with
    | .error e => .error e
    | .ok (b, st4) =>
      let st5 := { st4 with client := { st4.client with authenticated := b } }
      match get_cookie st5 with
      | .error e => .error e
      | .ok (_, st6) => check_login st6

/-- PassboltAPI.get_users: GET users.json and return the body field. -/
def get_users (st : St) : Except PyError (Json × St) :=
  match httpCall .get (usersUrl st) none st with
  | .error e => .error e
  | .ok (r, st1) =>
    match r.text.index "body" with
    | .error e => .error e
    | .ok b => .ok (b, st1)

/-- PassboltAPI.get_groups: GET groups.json and return the body field. -/
def get_groups (st : St) : Except PyError (Json × St) :=
  match httpCall .get (groupsUrl st) none st with
  | .error e => .error e
  | .ok (r, st1) =>
    match r.text.index "body" with
    | .error e => .error e
    | .ok b => .ok (b, st1)

/-- Python iteration over a decoded JSON value; the client only ever
iterates over array bodies, so other shapes are modelled as TypeError. -/
def asList : Json → Except PyError (List Json)
  | .arr xs => .ok xs
  | _ => .error .typeError

/-- The scan pattern shared by all four lookups: return the first
element whose field `k` compares equal to the string `t`, None when the
loop falls through. -/
def scanFor (k t : String) : List Json → Except PyError (Option Json)
  | [] => .ok none
  | x :: rest =>
    match x.index k with
    | .error e => .error e
    | .ok v => if jsonEqStr v t then .ok (some x) else scanFor k t rest

/-- PassboltAPI.get_user_by_email: scan the user listing on username. -/
def get_user_by_email (email : String) (st : St) :
    Except PyError (Option Json × St) :=
  match get_users st with
  | .error e => .error e
  | .ok (users, st1) =>
    match asList users with
    | .error e => .error e
    | .ok us =>
      match scanFor "username" email us with
      | .error e => .error e
      | .ok res => .ok (res, st1)

/-- PassboltAPI.get_user_by_id: scan the user listing on id. -/
def get_user_by_id (id : String) (st : St) :
    Except PyError (Option Json × St) :=
  match get_users st with
  | .error e => .error e
  | .ok (users, st1) =>
    match asList users with
    | .error e => .error e
    | .ok us =>
      match scanFor "id" id us with
      | .error e => .error e
      | .ok res => .ok (res, st1)

/-- PassboltAPI.get_group_by_name: scan the group listing on name. -/
def get_group_by_name (group_name : String) (st : St) :
    Except PyError (Option Json × St) :=
  match get_groups st with
  | .error e => .error e
  | .ok (groups, st1) =>
    match asList groups with
    | .error e => .error e
    | .ok gs =>
      match scanFor "name" group_name gs with
      | .error e => .error e
      | .ok res => .ok (res, st1)

/-- PassboltAPI.get_group_by_id: scan the group listing on id. -/
def get_group_by_id (group_id : String) (st : St) :
    Except PyError (Option Json × St) :=
  match get_groups st with
  | .error e => .error e
  | .ok (groups, st1) =>
    match asList groups with
    | .error e => .error e
    | .ok gs =>
      match scanFor "id" group_id gs with
      | .error e => .error e
      | .ok res => .ok (res, st1)

/-- Python None or a JSON value, as serialised into a request body. -/
def optJson : Option Json → Json
  | none => .null
  | some j => j

/-- Body posted by create_group. -/
def createGroupPost (group_name : String) (uid : Option Json) : Json :=
  .obj [("name", .str group_name),
        ("groups_users", .arr [.obj [("user_id", optJson uid), ("is_admin", .bool true)]])]

/-- PassboltAPI.create_group: POST the group name with the creating
client's own USER_ID as sole (admin) member, returning the raw
response. -/
def create_group (group_name : String) (st : St) :
    Except PyError (HttpResponse × St) :=
  httpCall .post (groupsUrl st) (some (createGroupPost group_name st.client.USER_ID)) st

/-- Membership body used by put_user_on_group for the dry-run request. -/
def putGroupPost (group_id user_id : String) (admin : Bool) : Json :=
  .obj [("id", .str group_id),
        ("groups_users", .arr [.obj [("user_id", .str user_id), ("is_admin", .bool admin)]])]

/-- Commit body of put_user_on_group: the membership change plus the
re-encrypted secrets list. -/
def putGroupCommitPost (group_id user_id : String) (admin : Bool)
    (secrets_list : List Json) : Json :=
  .obj [("id", .str group_id),
        ("groups_users", .arr [.obj [("user_id", .str user_id), ("is_admin", .bool admin)]]),
        ("secrets", .arr secrets_list)]

/-- PassboltAPI.get_user_public_key: GET users/(id).json and return
body["gpgkey"]. -/
def get_user_public_key (user_id : String) (st : St) :
    Except PyError (Json × St) :=
  match httpCall .get (userIdUrl st user_id) none st with
  | .error e => .error e
  | .ok (r, st1) =>
    match r.text.index "body" with
    | .error e => .error e
    | .ok b =>
      match b.index "gpgkey" with
      | .error e => .error e
      | .ok k => .ok (k, st1)

/-- Python list subscription l[0] on a decoded JSON value. -/
def pyFirst : Json → Except PyError Json
  | .arr (x :: _) => .ok x
  | .arr [] => .error .indexError
  | .obj _ => .error .keyError
  | _ => .error .typeError

/-- gpg.decrypt applied to a decoded JSON value: only a string can be
fed to the engine. -/
def decryptJson (st : St) (v : Json) : Except PyError Crypt :=
  match v with
  | .str s => .ok (st.dec s)
  | _ => .error .typeError

/-- PassboltAPI.encrypt: import the recipient key (needs armored_key),
then encrypt to its fingerprint. -/
def encryptTo (st : St) (message : String) (public_key : Json) :
    Except PyError String :=
  match public_key.index "armored_key" with
  | .error e => .error e
  | .ok _ =>
    match public_key.index "fingerprint" with
    | .error e => .error e
    | .ok f => .ok (st.enc message f)

/-- The re-encryption loop of put_user_on_group: for each dry-run
secret, decrypt secret["Secret"][0]["data"] with the client's own key,
re-encrypt the str() of the result to the target user's key, and emit
the resource_id / user_id / data record, in list order.  The loop does
no HTTP, so it only reads the state's oracles. -/
def buildSecretsList (st : St) (user_id : String) (user_key : Json) :
    List Json → Except PyError (List Json)
  | [] => .ok []
  | secret :: rest =>
    match secret.index "Secret" with
    | .error e => .error e
    | .ok l =>
      match pyFirst l with
      | .error e => .error e
      | .ok s0 =>
        match s0.index "data" with
        | .error e => .error e
        | .ok d =>
          match decryptJson st d with
          | .error e => .error e
          | .ok c =>
            match encryptTo st c.data user_key with
            | .error e => .error e
            | .ok enc2 =>
              match s0.index "resource_id" with
              | .error e => .error e
              | .ok rid =>
                match buildSecretsList st user_id user_key rest with
                | .error e => .error e
                | .ok tail =>
                  .ok (.obj [("resource_id", rid), ("user_id", .str user_id),
                             ("data", .str enc2)] :: tail)

/-- Console output of the non-200 branch of the group PUT operations:
response headers, a blank line, the response text, a blank line. -/
def logDryRunFailure (st : St) (r : HttpResponse) : St :=
  pylog (pylog (pylog (pylog st (.headers r.headers)) .blank) (.json r.text)) .blank

/-- PassboltAPI.put_user_on_group: PUT the membership change to the
dry-run endpoint; on HTTP 200 fetch the target user's public key, build
the re-encrypted secrets list from body["dry-run"]["Secrets"] and PUT
the commit body to the real endpoint; otherwise print diagnostics and
return the dry-run response. -/
def put_user_on_group (group_id user_id : String) (admin : Bool) (st : St) :
    Except PyError (HttpResponse × St) :=
  match httpCall .put (dryRunUrl st group_id) (some (putGroupPost group_id user_id admin)) st with
  | .error e => .error e
  | .ok (r, st1) =>
    if r.status_code = 200 then
      match get_user_public_key user_id st1 with
      | .error e => .error e
      | .ok (user_key, st2) =>
        match r.text.index "body" with
        | .error e => .error e
        | .ok b =>
          match b.index "dry-run" with
          | .error e => .error e
          | .ok dr =>
            match dr.index "Secrets" with
            | .error e => .error e
            | .ok sj =>
              match asList sj with
              | .error e => .error e
              | .ok secrets =>
                match buildSecretsList st2 user_id user_key secrets with
                | .error e => .error e
                | .ok secrets_list =>
                  httpCall .put (commitUrl st2 group_id)
                    (some (putGroupCommitPost group_id user_id admin secrets_list)) st2
    else
      .ok (r, logDryRunFailure st1 r)

/-- The scan of get_group_user_id over the user's groups_users entries:
the first entry whose group_id equals the requested group yields its
id (a missing id key raises, as group["id"] does). -/
def scanGroupUser (group_id : String) : List Json → Except PyError (Option Json)
  | [] => .ok none
  | g :: rest =>
    match g.index "group_id" with
    | .error e => .error e
    | .ok v =>
      if jsonEqStr v group_id then
        match g.index "id" with
        | .error e => .error e
        | .ok i => .ok (some i)
      else scanGroupUser group_id rest

/-- PassboltAPI.get_group_user_id: look the user up by id and scan its
groups_users for the membership record of the group (a missing user
means user is None, and None["groups_users"] raises TypeError). -/
def get_group_user_id (group_id user_id : String) (st : St) :
    Except PyError (Option Json × St) :=
  match get_user_by_id user_id st with
  | .error e => .error e
  | .ok (none, _) => .error .typeError
  | .ok (some user, st1) =>
    match user.index "groups_users" with
    | .error e => .error e
    | .ok gus =>
      match asList gus with
      | .error e => .error e
      | .ok l =>
        match scanGroupUser group_id l with
        | .error e => .error e
        | .ok res => .ok (res, st1)

/-- Body sent (twice) by update_user_to_group_admin: only the group id
and the membership-record id with is_admin True; no secrets. -/
def adminPost (group_id : String) (group_user_id : Option Json) : Json :=
  .obj [("id", .str group_id),
        ("groups_users", .arr [.obj [("id", optJson group_user_id), ("is_admin", .bool true)]])]

/-- PassboltAPI.update_user_to_group_admin: find the membership-record
id, PUT the admin body to the dry-run endpoint, and on HTTP 200 PUT the
very same body to the commit endpoint; otherwise print diagnostics and
return the dry-run response. -/
def update_user_to_group_admin (group_id user_id : String) (st : St) :
    Except PyError (HttpResponse × St) :=
  match get_group_user_id group_id user_id st with
  | .error e => .error e
  | .ok (guid, st1) =>
    match httpCall .put (dryRunUrl st1 group_id) (some (adminPost group_id guid)) st1 with
    | .error e => .error e
    | .ok (r, st2) =>
      if r.status_code = 200 then
        httpCall .put (commitUrl st2 group_id) (some (adminPost group_id guid)) st2
      else
        .ok (r, logDryRunFailure st2 r)

/-- PassboltAPI.load_config: the explicit mapping wins when non-empty
(python dict truthiness), else the parsed JSON file when it exists, else
the environment variables with their placeholder defaults.  File
existence and the parsed file contents stand in for the filesystem; the
environment is a partial map. -/
def load_config (dict_config : List (String × Json)) (fileExists : Bool)
    (fileJson : Json) (env : String → Option String) : Json :=
  if dict_config.isEmpty = false then
    .obj dict_config
  else if fileExists then
    fileJson
  else
    .obj [("gpgbinary", .str ((env "PASSBOLT_GPGBINARY").getD "gpg")),
          ("base_url", .str ((env "PASSBOLT_BASEURL").getD "https://undefined")),
          ("private_key", .str ((env "PASSBOLT_PRIVATE_KEY").getD "undefined")),
          ("passphrase", .str ((env "PASSBOLT_PASSPHRASE").getD "gpg"))]

/-- The configuration built purely from the environment. -/
def envConfig (env : String → Option String) : Json :=
  .obj [("gpgbinary", .str ((env "PASSBOLT_GPGBINARY").getD "gpg")),
        ("base_url", .str ((env "PASSBOLT_BASEURL").getD "https://undefined")),
        ("private_key", .str ((env "PASSBOLT_PRIVATE_KEY").getD "undefined")),
        ("passphrase", .str ((env "PASSBOLT_PASSPHRASE").getD "gpg"))]

/-- Value component of a run. -/
def resOf {α : Type} (x : Except PyError (α × St)) : Except PyError α :=
  x.map Prod.fst

/-- Request trace after a run. -/
def traceOf {α : Type} (x : Except PyError (α × St)) : Except PyError (List Request) :=
  x.map (fun p => p.2.trace)

/-- Pending responses after a run. -/
def pendingOf {α : Type} (x : Except PyError (α × St)) : Except PyError (List HttpResponse) :=
  x.map (fun p => p.2.pending)

/-- Client object after a run. -/
def clientOf {α : Type} (x : Except PyError (α × St)) : Except PyError Client :=
  x.map (fun p => p.2.client)

/-- Console output after a run (empty on an exception). -/
def logOfD {α : Type} (x : Except PyError (α × St)) : List LogItem :=
  match x with
  | .ok p => p.2.log
  | .error _ => []

/-- Authenticated flag after login. -/
def loginAuth (st : St) : Except PyError Bool :=
  (login st).map (fun p => p.2.client.authenticated)

/-- A concrete client used by the closed instances below. -/
def wClient : Client :=
  ⟨"FPR", "https://pb", false, none, none, none, none, [], []⟩

/-- A concrete decryption oracle. -/
def wDec (m : String) : Crypt :=
  ⟨true, "PT(" ++ m ++ ")"⟩

/-- A concrete encryption oracle. -/
def wEnc (m : String) (f : Json) : String :=
  match f with
  | .str s => "ENC[" ++ s ++ "](" ++ m ++ ")"
  | _ => "ENC?(" ++ m ++ ")"

/-- A concrete world with the given pending responses. -/
def wSt (pend : List HttpResponse) : St :=
  ⟨wClient, pend, [], [], wDec, wEnc⟩

/-- A JSON envelope with the given header code and body. -/
def envJson (code : Int) (body : Json) : Json :=
  .obj [("header", .obj [("code", .num code)]), ("body", body)]

/-- A 403 dry-run response used against put_user_on_group. -/
def wResp403 : HttpResponse :=
  ⟨403, [("content-type", "application/json")], envJson 403 .null⟩

/-- A bare 500 response used against check_login. -/
def wResp500 : HttpResponse :=
  ⟨500, [], .null⟩

/-- A bare 200 response. -/
def wResp200 : HttpResponse :=
  ⟨200, [], .null⟩

/-- A 200 listing response whose body is the given JSON array. -/
def listResp (xs : List Json) : HttpResponse :=
  ⟨200, [], .obj [("body", .arr xs)]⟩

/-- The element carries the key and its value does not compare equal to
the string `t` (so the scan steps over it without raising). -/
def fieldNotMatch (u : Json) (k t : String) : Bool :=
  match u.field k with
  | some v => !jsonEqStr v t
  | none => false

/-- The element carries the key and its value compares equal to `t`. -/
def fieldMatch (u : Json) (k t : String) : Bool :=
  match u.field k with
  | some v => jsonEqStr v t
  | none => false

/-- Two users for the closed lookup instances. -/
def wUserA : Json :=
  .obj [("id", .str "id-a"), ("username", .str "a@x")]

/-- Second user fixture. -/
def wUserB : Json :=
  .obj [("id", .str "id-b"), ("username", .str "b@x")]

/-- A dry-run secret entry with the given encrypted data and resource
id, shaped as the server returns it. -/
def mkSecretJson (p : String × Json) : Json :=
  .obj [("Secret", .arr [.obj [("data", .str p.1), ("resource_id", p.2)]])]

/-- A recipient public-key object as served under body.gpgkey. -/
def keyObj (ak : String) (fp : Json) : Json :=
  .obj [("armored_key", .str ak), ("fingerprint", fp)]

/-- A 200 dry-run response whose body lists the given secrets. -/
def dryRunResp (pairs : List (String × Json)) : HttpResponse :=
  ⟨200, [],
    .obj [("body", .obj [("dry-run",
      .obj [("Secrets", .arr (pairs.map mkSecretJson))])])]⟩

/-- A user-endpoint response carrying the recipient key. -/
def userKeyResp (ak : String) (fp : Json) : HttpResponse :=
  ⟨200, [], .obj [("body", .obj [("gpgkey", keyObj ak fp)])]⟩

/-- The record the re-encryption loop must emit for one dry-run secret:
its resource id, the target user, and the secret decrypted with the
client's own key then encrypted to the recipient fingerprint. -/
def expectedSecret (dec : String → Crypt) (enc : String → Json → String)
    (uid : String) (fp : Json) (p : String × Json) : Json :=
  .obj [("resource_id", p.2), ("user_id", .str uid),
        ("data", .str (enc (dec p.1).data fp))]

/-- Concrete dry-run secrets for the closed re-encryption instance. -/
def wPairs : List (String × Json) :=
  [("cipher-one", .str "res-1"), ("cipher-two", .str "res-2")]

/-- A membership record of some other group. -/
def wMemX : Json :=
  .obj [("group_id", .str "g-other"), ("id", .str "m-1")]

/-- A membership record of the targeted group. -/
def wMemY : Json :=
  .obj [("group_id", .str "g-tgt"), ("id", .str "m-2")]

/-- A user carrying the two membership records. -/
def wUserG : Json :=
  .obj [("id", .str "u-1"), ("groups_users", .arr [wMemX, wMemY])]

/-- Modelled from the claim's words for comparison with the code: the
header value URL-decoded and then every literal plus sign translated to
a space. -/
def claimPlusTransform (s : String) : String :=
  String.mk ((unquoteChars s.data).map (fun c => if c = '+' then ' ' else c))

/-- A 200 stage-1 response whose challenge header holds a bare plus. -/
def wStage1Resp : HttpResponse :=
  ⟨200, [("x-gpgauth-user-auth-token", "cipher+text")], envJson 200 .null⟩

/-- A 200 stage-1 response whose challenge header mixes the escaped and
the bare plus. -/
def wStage1RespB : HttpResponse :=
  ⟨200, [("x-gpgauth-user-auth-token", "a\\+b+c")], envJson 200 .null⟩

/-- A login response whose envelope reports failure code 500. -/
def wS1fail : HttpResponse :=
  ⟨200, [], envJson 500 .null⟩

/-- A login response whose envelope reports success code 200. -/
def wS2ok : HttpResponse :=
  ⟨200, [], envJson 200 .null⟩

/-- A users/me.json response with a set-cookie header and a body id. -/
def wMeResp : HttpResponse :=
  ⟨200, [("set-cookie", "passbolt_session=TOKENVALUE; path=/; HttpOnly")],
    envJson 200 (.obj [("id", .str "me-id")])⟩

/-- A users/me.json response lacking the set-cookie header. -/
def wMeNoCookie : HttpResponse :=
  ⟨200, [], envJson 200 (.obj [("id", .str "me-id")])⟩

/-- C2: a dry-run response with a non-200 HTTP status makes
put_user_on_group return that very response; the trace gains exactly the
one dry-run PUT (so no commit PUT and no user-key fetch are ever
issued), the next pending response is not consumed, and no secrets list
is built. -/
theorem C2_dry_run_abort (st : St) (group_id user_id : String) (admin : Bool)
    (r : HttpResponse) (rest : List HttpResponse)
    (hp : st.pending = r :: rest) (hs : r.status_code ≠ 200) :
    resOf (put_user_on_group group_id user_id admin st) = .ok r ∧
    traceOf (put_user_on_group group_id user_id admin st) =
      .ok (st.trace ++ [⟨.put, dryRunUrl st group_id, some (putGroupPost group_id user_id admin)⟩]) ∧
    pendingOf (put_user_on_group group_id user_id admin st) = .ok rest := by
  simp [put_user_on_group, httpCall, hp, hs, resOf, traceOf, pendingOf,
    logDryRunFailure, pylog, Except.map]

/-- C2 witness: a concrete 403 dry-run. -/
theorem C2_dry_run_abort_witness :
    resOf (put_user_on_group "g1" "u1" false (wSt [wResp403])) = .ok wResp403 ∧
    traceOf (put_user_on_group "g1" "u1" false (wSt [wResp403])) =
      .ok [⟨.put, dryRunUrl (wSt [wResp403]) "g1", some (putGroupPost "g1" "u1" false)⟩] ∧
    pendingOf (put_user_on_group "g1" "u1" false (wSt [wResp403])) = .ok [] := by
  have h := C2_dry_run_abort (wSt [wResp403]) "g1" "u1" false wResp403 []
    (by rfl) (by decide)
  simpa [wSt] using h

/-- C9: whatever status the liveness check receives, check_login leaves
the whole client object (authenticated flag, token, user id, session
headers, cookies) untouched; a non-200 status only appends the failure
message and the response to the console output, a 200 status logs
nothing. -/
theorem C9_check_login_frame (st : St) (r : HttpResponse) (rest : List HttpResponse)
    (hp : st.pending = r :: rest) :
    clientOf (check_login st) = .ok st.client ∧
    pendingOf (check_login st) = .ok rest ∧
    (r.status_code ≠ 200 →
      logOfD (check_login st) = st.log ++ [.str "Falha no login", .resp r]) ∧
    (r.status_code = 200 → logOfD (check_login st) = st.log) := by
  by_cases h200 : r.status_code = 200
  · simp [check_login, httpCall, hp, h200, clientOf, pendingOf, logOfD, Except.map]
  · simp [check_login, httpCall, hp, h200, clientOf, pendingOf, logOfD, pylog, Except.map]

/-- C9 witness: a concrete failed liveness check. -/
theorem C9_check_login_frame_witness :
    clientOf (check_login (wSt [wResp500])) = .ok wClient ∧
    logOfD (check_login (wSt [wResp500])) = [.str "Falha no login", .resp wResp500] := by
  have h := C9_check_login_frame (wSt [wResp500]) wResp500 [] (by rfl)
  exact ⟨by simpa [wSt] using h.1, by simpa [wSt] using h.2.2.1 (by decide)⟩

/-- C10: create_group always POSTs a body whose groups_users list is the
single entry naming the client's own USER_ID with is_admin True, and
hands the raw response back. -/
theorem C10_create_group (st : St) (group_name : String) (r : HttpResponse)
    (rest : List HttpResponse) (hp : st.pending = r :: rest) :
    resOf (create_group group_name st) = .ok r ∧
    traceOf (create_group group_name st) =
      .ok (st.trace ++ [⟨.post, groupsUrl st,
        some (createGroupPost group_name st.client.USER_ID)⟩]) ∧
    (createGroupPost group_name st.client.USER_ID).field "groups_users" =
      some (.arr [.obj [("user_id", optJson st.client.USER_ID), ("is_admin", .bool true)]]) := by
  refine ⟨?_, ?_, ?_⟩
  · simp [create_group, httpCall, hp, resOf, Except.map]
  · simp [create_group, httpCall, hp, traceOf, Except.map]
  · simp [createGroupPost, Json.field, fieldsFind]

/-- C10 witness: a concrete group creation. -/
theorem C10_create_group_witness :
    resOf (create_group "devs" (wSt [wResp200])) = .ok wResp200 ∧
    traceOf (create_group "devs" (wSt [wResp200])) =
      .ok [⟨.post, groupsUrl (wSt [wResp200]),
        some (createGroupPost "devs" (wSt [wResp200]).client.USER_ID)⟩] := by
  have h := C10_create_group (wSt [wResp200]) "devs" wResp200 [] (by rfl)
  exact ⟨h.1, by simpa [wSt] using h.2.1⟩

/-- C7: load_config resolves exactly in the order explicit mapping →
existing JSON file → environment variables, where the environment
fallback substitutes the placeholder defaults gpg, https://undefined,
undefined and gpg for absent variables; being a total function it raises
nothing when credentials are missing. -/
theorem C7_load_config_order :
    ∀ (dc : List (String × Json)) (fe : Bool) (fj : Json) (env : String → Option String),
    (dc ≠ [] → load_config dc fe fj env = .obj dc) ∧
    (load_config [] true fj env = fj) ∧
    (load_config [] false fj env = envConfig env) ∧
    (load_config [] false fj (fun _ => none) =
      .obj [("gpgbinary", .str "gpg"), ("base_url", .str "https://undefined"),
            ("private_key", .str "undefined"), ("passphrase", .str "gpg")]) := by
  intro dc fe fj env
  refine ⟨?_, ?_, ?_, ?_⟩
  · intro h
    cases dc with
    | nil => exact absurd rfl h
    | cons a l => simp [load_config]
  · simp [load_config]
  · simp [load_config, envConfig]
  · simp [load_config]

/-- C7 witness: each resolution layer at a concrete input. -/
theorem C7_load_config_order_witness :
    load_config [("base_url", .str "https://x")] true (.str "file") (fun _ => none) =
      .obj [("base_url", .str "https://x")] ∧
    load_config [] true (.str "file") (fun _ => none) = .str "file" ∧
    load_config [] false (.str "file") (fun _ => none) =
      .obj [("gpgbinary", .str "gpg"), ("base_url", .str "https://undefined"),
            ("private_key", .str "undefined"), ("passphrase", .str "gpg")] := by
  have h := C7_load_config_order [("base_url", .str "https://x")] true (.str "file")
    (fun _ => none)
  have h2 := C7_load_config_order [] true (.str "file") (fun _ => none)
  exact ⟨h.1 (by simp), h2.2.1, h2.2.2.2⟩

/-- Subscription agrees with total field access when the key is there. -/
theorem index_of_field (u : Json) (k : String) (v : Json)
    (h : u.field k = some v) : u.index k = .ok v := by
  cases u <;> simp_all [Json.field, Json.index]

/-- A scan over elements that all carry the key but none matching falls
off the loop and returns None. -/
theorem scanFor_none (k t : String) :
    ∀ us : List Json, (∀ u ∈ us, fieldNotMatch u k t = true) →
    scanFor k t us = .ok none := by
  intro us
  induction us with
  | nil => intro _; rfl
  | cons u rest ih =>
    intro h
    have hu := h u (List.mem_cons_self u rest)
    unfold fieldNotMatch at hu
    cases hf : u.field k with
    | none => rw [hf] at hu; cases hu
    | some v =>
      rw [hf] at hu
      simp at hu
      simp [scanFor, index_of_field u k v hf, hu,
        ih (fun u' hu' => h u' (List.mem_cons_of_mem u hu'))]

/-- A scan returns the first matching element, in list order. -/
theorem scanFor_first (k t : String) :
    ∀ (pre : List Json) (x : Json) (post : List Json),
    (∀ u ∈ pre, fieldNotMatch u k t = true) → fieldMatch x k t = true →
    scanFor k t (pre ++ x :: post) = .ok (some x) := by
  intro pre x post
  induction pre with
  | nil =>
    intro _ hx
    unfold fieldMatch at hx
    cases hf : x.field k with
    | none => rw [hf] at hx; cases hx
    | some v =>
      rw [hf] at hx
      simp at hx
      simp [scanFor, index_of_field x k v hf, hx]
  | cons u rest ih =>
    intro h hx
    have hu := h u (List.mem_cons_self u rest)
    unfold fieldNotMatch at hu
    cases hf : u.field k with
    | none => rw [hf] at hu; cases hu
    | some v =>
      rw [hf] at hu
      simp at hu
      simp [scanFor, index_of_field u k v hf, hu,
        ih (fun u' hu' => h u' (List.mem_cons_of_mem u hu'))]
      exact ih (fun u' hu' => h u' (List.mem_cons_of_mem u hu')) hx

/-- C5: each of the four lookups returns None when every listed entity
carries the requested field but none matches, and returns the first
matching entity in list order when one or more match. -/
theorem C5_lookup_semantics :
    (∀ (st : St) (us rest' email),
      st.pending = listResp us :: rest' →
      (∀ u ∈ us, fieldNotMatch u "username" email = true) →
      resOf (get_user_by_email email st) = .ok none) ∧
    (∀ (st : St) (pre : List Json) (x : Json) (post rest' email),
      st.pending = listResp (pre ++ x :: post) :: rest' →
      (∀ u ∈ pre, fieldNotMatch u "username" email = true) →
      fieldMatch x "username" email = true →
      resOf (get_user_by_email email st) = .ok (some x)) ∧
    (∀ (st : St) (us rest' id),
      st.pending = listResp us :: rest' →
      (∀ u ∈ us, fieldNotMatch u "id" id = true) →
      resOf (get_user_by_id id st) = .ok none) ∧
    (∀ (st : St) (pre : List Json) (x : Json) (post rest' id),
      st.pending = listResp (pre ++ x :: post) :: rest' →
      (∀ u ∈ pre, fieldNotMatch u "id" id = true) →
      fieldMatch x "id" id = true →
      resOf (get_user_by_id id st) = .ok (some x)) ∧
    (∀ (st : St) (gs rest' name),
      st.pending = listResp gs :: rest' →
      (∀ g ∈ gs, fieldNotMatch g "name" name = true) →
      resOf (get_group_by_name name st) = .ok none) ∧
    (∀ (st : St) (pre : List Json) (x : Json) (post rest' name),
      st.pending = listResp (pre ++ x :: post) :: rest' →
      (∀ g ∈ pre, fieldNotMatch g "name" name = true) →
      fieldMatch x "name" name = true →
      resOf (get_group_by_name name st) = .ok (some x)) ∧
    (∀ (st : St) (gs rest' gid),
      st.pending = listResp gs :: rest' →
      (∀ g ∈ gs, fieldNotMatch g "id" gid = true) →
      resOf (get_group_by_id gid st) = .ok none) ∧
    (∀ (st : St) (pre : List Json) (x : Json) (post rest' gid),
      st.pending = listResp (pre ++ x :: post) :: rest' →
      (∀ g ∈ pre, fieldNotMatch g "id" gid = true) →
      fieldMatch x "id" gid = true →
      resOf (get_group_by_id gid st) = .ok (some x)) := by
  refine ⟨?_, ?_, ?_, ?_, ?_, ?_, ?_, ?_⟩
  · intro st us rest' email hp h
    simp [get_user_by_email, get_users, httpCall, hp, listResp, Json.index,
      fieldsFind, asList, scanFor_none "username" email us h, resOf, Except.map]
  · intro st pre x post rest' email hp h hx
    simp [get_user_by_email, get_users, httpCall, hp, listResp, Json.index,
      fieldsFind, asList, scanFor_first "username" email pre x post h hx, resOf, Except.map]
  · intro st us rest' id hp h
    simp [get_user_by_id, get_users, httpCall, hp, listResp, Json.index,
      fieldsFind, asList, scanFor_none "id" id us h, resOf, Except.map]
  · intro st pre x post rest' id hp h hx
    simp [get_user_by_id, get_users, httpCall, hp, listResp, Json.index,
      fieldsFind, asList, scanFor_first "id" id pre x post h hx, resOf, Except.map]
  · intro st gs rest' name hp h
    simp [get_group_by_name, get_groups, httpCall, hp, listResp, Json.index,
      fieldsFind, asList, scanFor_none "name" name gs h, resOf, Except.map]
  · intro st pre x post rest' name hp h hx
    simp [get_group_by_name, get_groups, httpCall, hp, listResp, Json.index,
      fieldsFind, asList, scanFor_first "name" name pre x post h hx, resOf, Except.map]
  · intro st gs rest' gid hp h
    simp [get_group_by_id, get_groups, httpCall, hp, listResp, Json.index,
      fieldsFind, asList, scanFor_none "id" gid gs h, resOf, Except.map]
  · intro st pre x post rest' gid hp h hx
    simp [get_group_by_id, get_groups, httpCall, hp, listResp, Json.index,
      fieldsFind, asList, scanFor_first "id" gid pre x post h hx, resOf, Except.map]

/-- C5 witness: an absent address returns no user; a present one returns
the first (here unique) match. -/
theorem C5_lookup_semantics_witness :
    resOf (get_user_by_email "nobody@example.com" (wSt [listResp [wUserA, wUserB]])) =
      .ok none ∧
    resOf (get_user_by_email "b@x" (wSt [listResp [wUserA, wUserB]])) =
      .ok (some wUserB) := by
  constructor
  · exact C5_lookup_semantics.1 (wSt [listResp [wUserA, wUserB]])
      [wUserA, wUserB] [] "nobody@example.com" (by rfl) (by decide)
  · exact C5_lookup_semantics.2.1 (wSt [listResp [wUserA, wUserB]])
      [wUserA] wUserB [] [] "b@x" (by rfl) (by decide) (by decide)

/-- The re-encryption loop on a well-shaped dry-run secrets list yields
exactly one record per secret, in order. -/
theorem buildSecretsList_eval (st : St) (uid ak : String) (fp : Json) :
    ∀ pairs : List (String × Json),
    buildSecretsList st uid (keyObj ak fp) (pairs.map mkSecretJson) =
      .ok (pairs.map (expectedSecret st.dec st.enc uid fp)) := by
  intro pairs
  induction pairs with
  | nil => rfl
  | cons p rest ih =>
    simp only [keyObj] at ih
    simp [buildSecretsList, mkSecretJson, Json.index, fieldsFind, pyFirst,
      decryptJson, encryptTo, keyObj, ih, expectedSecret]

/-- C3: on a 200 dry-run, the commit PUT body carries one
resource_id / user_id / data record per dry-run secret, in the same
order, with data the secret decrypted by the client's own key and
re-encrypted to the recipient key fetched from the single-user endpoint;
the commit response is returned. -/
theorem C3_reencrypted_commit (st : St) (group_id user_id ak : String) (fp : Json)
    (admin : Bool) (pairs : List (String × Json)) (rc : HttpResponse)
    (rest : List HttpResponse)
    (hp : st.pending = dryRunResp pairs :: userKeyResp ak fp :: rc :: rest) :
    resOf (put_user_on_group group_id user_id admin st) = .ok rc ∧
    traceOf (put_user_on_group group_id user_id admin st) =
      .ok (st.trace ++
        [⟨.put, dryRunUrl st group_id, some (putGroupPost group_id user_id admin)⟩,
         ⟨.get, userIdUrl st user_id, none⟩,
         ⟨.put, commitUrl st group_id,
           some (putGroupCommitPost group_id user_id admin
             (pairs.map (expectedSecret st.dec st.enc user_id fp)))⟩]) := by
  constructor
  · simp [put_user_on_group, httpCall, hp, dryRunResp, userKeyResp,
      get_user_public_key, userIdUrl, Json.index, fieldsFind, asList,
      buildSecretsList_eval, resOf, Except.map]
  · simp [put_user_on_group, httpCall, hp, dryRunResp, userKeyResp,
      get_user_public_key, userIdUrl, dryRunUrl, commitUrl, Json.index,
      fieldsFind, asList, buildSecretsList_eval, traceOf, Except.map]

/-- C3 witness: two concrete secrets re-encrypted and committed. -/
theorem C3_reencrypted_commit_witness :
    resOf (put_user_on_group "g" "u" false
      (wSt [dryRunResp wPairs, userKeyResp "AK" (.str "KF"), wResp200])) = .ok wResp200 ∧
    traceOf (put_user_on_group "g" "u" false
      (wSt [dryRunResp wPairs, userKeyResp "AK" (.str "KF"), wResp200])) =
      .ok [⟨.put, dryRunUrl (wSt [dryRunResp wPairs, userKeyResp "AK" (.str "KF"), wResp200]) "g",
             some (putGroupPost "g" "u" false)⟩,
           ⟨.get, userIdUrl (wSt [dryRunResp wPairs, userKeyResp "AK" (.str "KF"), wResp200]) "u",
             none⟩,
           ⟨.put, commitUrl (wSt [dryRunResp wPairs, userKeyResp "AK" (.str "KF"), wResp200]) "g",
             some (putGroupCommitPost "g" "u" false
               (wPairs.map (expectedSecret wDec wEnc "u" (.str "KF"))))⟩] := by
  have h := C3_reencrypted_commit
    (wSt [dryRunResp wPairs, userKeyResp "AK" (.str "KF"), wResp200])
    "g" "u" "AK" (.str "KF") false wPairs wResp200 [] (by rfl)
  exact ⟨h.1, by simpa [wSt] using h.2⟩

/-- Run shape of get_group_user_id when the user listing holds the user
and the membership scan finds a record: one GET is issued and the
record id is returned. -/
theorem get_group_user_id_run (st : St) (group_id user_id : String)
    (us gus : List Json) (user guid : Json) (rest : List HttpResponse)
    (hp : st.pending = listResp us :: rest)
    (hscan : scanFor "id" user_id us = .ok (some user))
    (hgus : user.field "groups_users" = some (.arr gus))
    (hmem : scanGroupUser group_id gus = .ok (some guid)) :
    get_group_user_id group_id user_id st =
      .ok (some guid, { st with
        pending := rest,
        trace := st.trace ++ [⟨.get, usersUrl st, none⟩] }) := by
  have hidx := index_of_field user "groups_users" (.arr gus) hgus
  have hb : (listResp us).text.index "body" = .ok (.arr us) := by
    simp [listResp, Json.index, fieldsFind]
  simp [get_group_user_id, get_user_by_id, get_users, httpCall, hp, hb,
    asList, hscan, hidx, hmem]

/-- C8: both admin-promotion PUTs (the dry-run one, and on HTTP 200 the
commit one) carry exactly the body made of the group id and one
groups_users entry holding the membership-record id found by scanning
the target user's memberships with is_admin True; that body has no
secrets key, and a non-200 dry-run status stops before the commit
PUT. -/
theorem C8_admin_promotion (st : St) (group_id user_id : String) (us gus : List Json)
    (user guid : Json) (rdry rcom : HttpResponse) (rest : List HttpResponse)
    (hp : st.pending = listResp us :: rdry :: rcom :: rest)
    (hscan : scanFor "id" user_id us = .ok (some user))
    (hgus : user.field "groups_users" = some (.arr gus))
    (hmem : scanGroupUser group_id gus = .ok (some guid)) :
    (adminPost group_id (some guid)).field "secrets" = none ∧
    (rdry.status_code = 200 →
      resOf (update_user_to_group_admin group_id user_id st) = .ok rcom ∧
      traceOf (update_user_to_group_admin group_id user_id st) =
        .ok (st.trace ++
          [⟨.get, usersUrl st, none⟩,
           ⟨.put, dryRunUrl st group_id, some (adminPost group_id (some guid))⟩,
           ⟨.put, commitUrl st group_id, some (adminPost group_id (some guid))⟩])) ∧
    (rdry.status_code ≠ 200 →
      resOf (update_user_to_group_admin group_id user_id st) = .ok rdry ∧
      traceOf (update_user_to_group_admin group_id user_id st) =
        .ok (st.trace ++
          [⟨.get, usersUrl st, none⟩,
           ⟨.put, dryRunUrl st group_id, some (adminPost group_id (some guid))⟩])) := by
  have hrun := get_group_user_id_run st group_id user_id us gus user guid
    (rdry :: rcom :: rest) hp hscan hgus hmem
  refine ⟨by simp [adminPost, Json.field, fieldsFind], ?_, ?_⟩
  · intro h200
    constructor
    · simp [update_user_to_group_admin, hrun, httpCall, h200, resOf, Except.map]
    · simp [update_user_to_group_admin, hrun, httpCall, h200, usersUrl,
        dryRunUrl, commitUrl, traceOf, Except.map]
  · intro h200
    constructor
    · simp [update_user_to_group_admin, hrun, httpCall, h200,
        logDryRunFailure, pylog, resOf, Except.map]
    · simp [update_user_to_group_admin, hrun, httpCall, h200,
        logDryRunFailure, pylog, usersUrl, dryRunUrl, commitUrl,
        traceOf, Except.map]

/-- C8 witness: a concrete promotion, membership record found behind a
non-matching one, dry-run accepted. -/
theorem C8_admin_promotion_witness :
    (adminPost "g-tgt" (some (.str "m-2"))).field "secrets" = none ∧
    resOf (update_user_to_group_admin "g-tgt" "u-1"
      (wSt [listResp [wUserG], wResp200, wResp403])) = .ok wResp403 ∧
    traceOf (update_user_to_group_admin "g-tgt" "u-1"
      (wSt [listResp [wUserG], wResp200, wResp403])) =
      .ok [⟨.get, usersUrl (wSt [listResp [wUserG], wResp200, wResp403]), none⟩,
           ⟨.put, dryRunUrl (wSt [listResp [wUserG], wResp200, wResp403]) "g-tgt",
             some (adminPost "g-tgt" (some (.str "m-2")))⟩,
           ⟨.put, commitUrl (wSt [listResp [wUserG], wResp200, wResp403]) "g-tgt",
             some (adminPost "g-tgt" (some (.str "m-2")))⟩] := by
  have h := C8_admin_promotion (wSt [listResp [wUserG], wResp200, wResp403])
    "g-tgt" "u-1" [wUserG] [wMemX, wMemY] wUserG (.str "m-2") wResp200 wResp403 []
    (by rfl) (by rfl) (by rfl) (by rfl)
  exact ⟨h.1, (h.2.1 (by decide)).1, by simpa [wSt] using (h.2.1 (by decide)).2⟩

/-- The replacement scan turns each backslash-plus pair into a space. -/
theorem replaceBackslashPlus_pair (l : List Char) :
    replaceBackslashPlus ('\\' :: '+' :: l) = ' ' :: replaceBackslashPlus l := rfl

/-- The replacement scan copies any character other than a backslash, in
particular a bare plus sign. -/
theorem replaceBackslashPlus_copy (c : Char) (l : List Char) (h : c ≠ '\\') :
    replaceBackslashPlus (c :: l) = c :: replaceBackslashPlus l := by
  rw [replaceBackslashPlus.eq_def]
  split
  · rename_i heq
    exact absurd heq (List.cons_ne_nil c l)
  · rename_i rest heq
    injection heq with h1 h2
    exact absurd h1 h
  · rename_i c' rest hnot heq
    injection heq with h1 h2
    rw [← h1, ← h2]

/-- C4 counterexample: with envelope code 200 and the challenge header
value cipher+text, stage1 returns that value unchanged, while the
claimed URL-decode-and-plus-to-space transform would give cipher text;
the two differ, so a bare plus is not translated. -/
theorem C4_counterexample :
    resOf (stage1 (wSt [wStage1Resp])) = .ok (some "cipher+text") ∧
    claimPlusTransform "cipher+text" = "cipher text" ∧
    ("cipher+text" : String) ≠ "cipher text" := by
  refine ⟨rfl, rfl, by decide⟩

/-- C4 as amended: on a 200 envelope, stage1 returns the challenge
header URL-decoded and with every literal backslash-plus sequence (not
every bare plus) translated to a space; any character other than a
backslash, including a bare plus, is kept. -/
theorem C4_stage1_transform (st : St) (r : HttpResponse) (rest : List HttpResponse)
    (v : String) (hp : st.pending = r :: rest)
    (hc : envCode r.text = .ok (.num 200))
    (hv : headerGet r.headers "x-gpgauth-user-auth-token" = some v) :
    resOf (stage1 st) = .ok (some (pgpTransform v)) ∧
    pgpTransform v = String.mk (replaceBackslashPlus (unquoteChars v.data)) ∧
    (∀ l, replaceBackslashPlus ('\\' :: '+' :: l) = ' ' :: replaceBackslashPlus l) ∧
    (∀ (c : Char) (l : List Char), c ≠ '\\' →
      replaceBackslashPlus (c :: l) = c :: replaceBackslashPlus l) := by
  refine ⟨?_, rfl, fun l => replaceBackslashPlus_pair l,
    fun c l h => replaceBackslashPlus_copy c l h⟩
  simp [stage1, httpCall, hp, hc, hv, jsonEqNum, resOf, Except.map]

/-- C4 witness: backslash-plus becomes a space, the bare plus stays. -/
theorem C4_stage1_transform_witness :
    resOf (stage1 (wSt [wStage1RespB])) = .ok (some "a b+c") := by
  have h := C4_stage1_transform (wSt [wStage1RespB]) wStage1RespB [] "a\\+b+c"
    (by rfl) (by rfl) (by rfl)
  exact h.1

/-- C1 counterexample: with a stage-1 envelope code of 500 (a stage-1
failure, hence no challenge and a failed decryption) but a stage-2
envelope code of 200, login completes with the authenticated flag True,
while the claim demands the failed state unless stage 1 succeeded and
decryption succeeded as well. -/
theorem C1_counterexample :
    loginAuth (wSt [wS1fail, wS2ok, wMeResp, wResp200]) = .ok true ∧
    envCode wS1fail.text = .ok (.num 500) ∧
    envCode wS2ok.text = .ok (.num 200) := ⟨rfl, rfl, rfl⟩

/-- C1 as amended: whenever login completes (the pending responses are
well-formed enough for no exception to escape), the authenticated flag
equals the stage-2 envelope-code-200 test alone; the stage-1 outcome and
the decryption result influence it only through the server's stage-2
answer. -/
theorem C1_stage2_decides (st : St) (r1 r2 r3 r4 : HttpResponse)
    (rest : List HttpResponse) (c1 c2 bj uid : Json) (ck : String)
    (hp : st.pending = r1 :: r2 :: r3 :: r4 :: rest)
    (hc1 : envCode r1.text = .ok c1)
    (hv : jsonEqNum c1 200 = true →
      (headerGet r1.headers "x-gpgauth-user-auth-token").isSome = true)
    (hc2 : envCode r2.text = .ok c2)
    (hb1 : r3.text.index "body" = .ok bj)
    (hb2 : bj.index "id" = .ok uid)
    (hck : headerGet r3.headers "set-cookie" = some ck) :
    loginAuth st = .ok (jsonEqNum c2 200) := by
  by_cases h1 : jsonEqNum c1 200 = true
  · obtain ⟨v, hveq⟩ := Option.isSome_iff_exists.mp (hv h1)
    by_cases h4 : r4.status_code = 200
    · simp [loginAuth, login, stage1, stage2, get_cookie, check_login, httpCall,
        hp, hc1, h1, hveq, hc2, hb1, hb2, hck, decryptMsg, h4, Except.map]
    · simp [loginAuth, login, stage1, stage2, get_cookie, check_login, httpCall,
        hp, hc1, h1, hveq, hc2, hb1, hb2, hck, decryptMsg, pylog, h4, Except.map]
  · simp only [Bool.not_eq_true] at h1
    by_cases h4 : r4.status_code = 200
    · simp [loginAuth, login, stage1, stage2, get_cookie, check_login, httpCall,
        hp, hc1, h1, hc2, hb1, hb2, hck, decryptMsg, pylog, h4, Except.map]
    · simp [loginAuth, login, stage1, stage2, get_cookie, check_login, httpCall,
        hp, hc1, h1, hc2, hb1, hb2, hck, decryptMsg, pylog, h4, Except.map]

/-- C1 witness: a failed stage 1 followed by a 200 stage 2 still ends
authenticated. -/
theorem C1_stage2_decides_witness :
    loginAuth (wSt [wS1fail, wS2ok, wMeResp, wResp200]) = .ok true := by
  have h := C1_stage2_decides (wSt [wS1fail, wS2ok, wMeResp, wResp200])
    wS1fail wS2ok wMeResp wResp200 [] (.num 500) (.num 200)
    (.obj [("id", .str "me-id")]) (.str "me-id")
    "passbolt_session=TOKENVALUE; path=/; HttpOnly"
    (by rfl) (by rfl) (by decide) (by rfl) (by rfl) (by rfl) (by rfl)
  exact h

/-- C6 counterexample: the stage-1 envelope fails with code 500, yet
login does not complete quietly: the who-am-I response carries no
set-cookie header, so login raises TypeError (None[10:-8]) instead of
merely reporting the stage failure. -/
theorem C6_counterexample :
    envCode wS1fail.text = .ok (.num 500) ∧
    loginAuth (wSt [wS1fail, wS1fail, wMeNoCookie, wResp200]) = .error .typeError :=
  ⟨rfl, rfl⟩

/-- C6 as amended: a failing handshake stage itself raises nothing: with
a non-200 stage-1 envelope the failure is reported on the console (the
decoded stage-1 response is printed) and, provided the stage-2 envelope
is also non-200 and the who-am-I response carries a set-cookie header
and a body id, login completes with the client unauthenticated; when the
who-am-I response lacks the cookie, login raises there instead. -/
theorem C6_stage_failure_console (st : St) (r1 r2 r3 r4 : HttpResponse)
    (rest : List HttpResponse) (c1 c2 bj uid : Json) (ck : String)
    (hp : st.pending = r1 :: r2 :: r3 :: r4 :: rest)
    (hc1 : envCode r1.text = .ok c1) (h1 : jsonEqNum c1 200 = false)
    (hc2 : envCode r2.text = .ok c2) (h2 : jsonEqNum c2 200 = false)
    (hb1 : r3.text.index "body" = .ok bj)
    (hb2 : bj.index "id" = .ok uid)
    (hck : headerGet r3.headers "set-cookie" = some ck) :
    loginAuth st = .ok false ∧ LogItem.json r1.text ∈ logOfD (login st) := by
  by_cases h4 : r4.status_code = 200
  · constructor
    · simp [loginAuth, login, stage1, stage2, get_cookie, check_login, httpCall,
        hp, hc1, h1, hc2, h2, hb1, hb2, hck, decryptMsg, pylog, h4, Except.map]
    · simp [logOfD, login, stage1, stage2, get_cookie, check_login, httpCall,
        hp, hc1, h1, hc2, h2, hb1, hb2, hck, decryptMsg, pylog, h4]
  · constructor
    · simp [loginAuth, login, stage1, stage2, get_cookie, check_login, httpCall,
        hp, hc1, h1, hc2, h2, hb1, hb2, hck, decryptMsg, pylog, h4, Except.map]
    · simp [logOfD, login, stage1, stage2, get_cookie, check_login, httpCall,
        hp, hc1, h1, hc2, h2, hb1, hb2, hck, decryptMsg, pylog, h4]

/-- C6 witness: both stages rejected and a well-formed who-am-I
response: login completes unauthenticated with the stage-1 failure
printed. -/
theorem C6_stage_failure_console_witness :
    loginAuth (wSt [wS1fail, wS1fail, wMeResp, wResp200]) = .ok false ∧
    LogItem.json wS1fail.text ∈
      logOfD (login (wSt [wS1fail, wS1fail, wMeResp, wResp200])) := by
  exact C6_stage_failure_console (wSt [wS1fail, wS1fail, wMeResp, wResp200])
    wS1fail wS1fail wMeResp wResp200 [] (.num 500) (.num 500)
    (.obj [("id", .str "me-id")]) (.str "me-id")
    "passbolt_session=TOKENVALUE; path=/; HttpOnly"
    (by rfl) (by rfl) (by rfl) (by rfl) (by rfl) (by rfl) (by rfl) (by rfl)

end Passbolt
